import Mathlib

/-
Verification of the Java-to-Bedrock cuboid-model converter
(`src/geometry/converter.js`, class `JavaToBedrockConverter`).

The embedding models JSON numbers as exact rationals (ℚ), JS objects as
structures with `Option` fields for optional/possibly-absent properties,
and JS exceptions as `Except ConvError`.  String operations used by the
texture-atlas lookup are re-implemented structurally over `List Char` so
that every definition evaluates inside the kernel.
-/

namespace JavaToBedrock

/-- A 3-component numeric vector (a JSON `[x, y, z]` triple). -/
structure Vec3 where
  x : ℚ
  y : ℚ
  z : ℚ
deriving DecidableEq

/-- A 4-component UV rectangle `[u0, v0, u1, v1]` as found on a face. -/
structure Rect4 where
  u0 : ℚ
  v0 : ℚ
  u1 : ℚ
  v1 : ℚ
deriving DecidableEq

/-- `roundit` from the source: `(val) => Math.round(val * 10000) / 10000`.
JS `Math.round` returns the integer closest to its argument with ties
rounding toward positive infinity, i.e. `⌊x + 1/2⌋` on exact values. -/
def roundit (v : ℚ) : ℚ := (⌊v * 10000 + 1 / 2⌋ : ℚ) / 10000

/-- A source element's `rotation` object: `{ origin, angle, axis }`. -/
structure SourceRotation where
  origin : Vec3
  angle : ℚ
  axis : String
deriving DecidableEq

/-- One face of a source element: `{ uv?, texture? }`. -/
structure Face where
  uv : Option Rect4
  texture : Option String
deriving DecidableEq

/-- A source element: `{ from, to, faces, rotation? }`.  `from`/`to` are
spelled `efrom`/`eto` because `from` is reserved in Lean. -/
structure Element where
  efrom : Vec3
  eto : Vec3
  faces : List (String × Face)
  rotation : Option SourceRotation
deriving DecidableEq

/-- The source document: `{ textures?, texture_size?, elements }`.
`textures` is `Option` because the JS property may be absent entirely,
in which case dereferencing it throws a `TypeError`. -/
structure JavaModel where
  textures : Option (List (String × String))
  texture_size : Option (ℚ × ℚ)
  elements : List Element
deriving DecidableEq

/-- One packed frame from the spritesheet JSON: `frame: {x, y, w, h}`. -/
structure Frame where
  x : ℚ
  y : ℚ
  w : ℚ
  h : ℚ
deriving DecidableEq

/-- The Atlas Service output: `{ frames: {path: frame}, meta: {size: {w, h}} }`. -/
structure Spritesheet where
  frames : List (String × Frame)
  metaW : ℚ
  metaH : ℚ
deriving DecidableEq

/-- The mutable fields of a `JavaToBedrockConverter` instance. -/
structure ConverterState where
  textureWidth : ℚ
  textureHeight : ℚ
  spritesheetData : Option Spritesheet
deriving DecidableEq

/-- The constructor of `JavaToBedrockConverter`: 16×16, no spritesheet. -/
def mkConverter : ConverterState := ⟨16, 16, none⟩

/-- JS object property lookup over a key/value list (keys are unique in a
JS object, so first match is the semantics). -/
def lookupStr {α : Type} (table : List (String × α)) (k : String) : Option α :=
  (table.find? (fun p => p.1 == k)).map (fun p => p.2)

/-- Does `pat` occur at the head of the character list? -/
def leadMatch : List Char → List Char → Bool
  | [], _ => true
  | _ :: _, [] => false
  | p :: ps, c :: cs => p == c && leadMatch ps cs

/-- Does `pat` occur anywhere in the character list? -/
def subOccurs (pat : List Char) : List Char → Bool
  | [] => leadMatch pat []
  | c :: cs => leadMatch pat (c :: cs) || subOccurs pat cs

/-- JS `String.prototype.includes` (substring containment). -/
def jsIncludes (s pat : String) : Bool := subOccurs pat.data s.data

/-- JS `String.prototype.endsWith`. -/
def jsEndsWith (s pat : String) : Bool := leadMatch pat.data.reverse s.data.reverse

/-- JS `String.prototype.substring(1)`. -/
def jsDrop1 (s : String) : String := String.mk (s.data.drop 1)

/-- `textureRef.replace(/^[^:]+:/, '')`: drop a nonempty run of non-colon
characters followed by the first colon, when the string starts with one. -/
def stripNs (s : String) : String :=
  match s.data.findIdx? (fun c => c == ':') with
  | none => s
  | some 0 => s
  | some i => String.mk (s.data.drop (i + 1))

/-- `.replace(/\\/g, '/')`: backslashes to forward slashes. -/
def normSlash (s : String) : String :=
  String.mk (s.data.map (fun c => if c == '\\' then '/' else c))

/-- `textureRef.replace(/^[^:]+:/, '').replace(/\\/g, '/')`. -/
def cleanTexPath (ref : String) : String := normSlash (stripNs ref)

/-- `cleanPath.split('/').pop()`: the part after the last slash. -/
def lastComponent (s : String) : String :=
  String.mk (s.data.foldl (fun acc c => if c == '/' then [] else acc ++ [c]) [])

/-- First matching strategy of the atlas lookup, over a normalized frame
path: substring or suffix match of `cleanPath` with `.png`/`_cropped.png`. -/
def frameMatch1 (cleanPath framePath : String) : Bool :=
  let n := normSlash framePath
  jsIncludes n (cleanPath ++ ".png") ||
  jsIncludes n (cleanPath ++ "_cropped.png") ||
  jsEndsWith n ("/" ++ cleanPath ++ ".png") ||
  jsEndsWith n ("/" ++ cleanPath ++ "_cropped.png")

/-- First lookup loop over the spritesheet frames. -/
def findFrame1 (frames : List (String × Frame)) (cleanPath : String) : Option Frame :=
  (frames.find? (fun p => frameMatch1 cleanPath p.1)).map (fun p => p.2)

/-- Fallback lookup loop: match just the filename (raw frame path). -/
def findFrame2 (frames : List (String × Frame)) (filename : String) : Option Frame :=
  (frames.find? (fun p =>
    jsIncludes p.1 (filename ++ ".png") || jsIncludes p.1 (filename ++ "_cropped.png"))).map
    (fun p => p.2)

/-- The whole frame lookup of `calculateUV`: primary strategy, then the
filename-only fallback. -/
def findTextureData (frames : List (String × Frame)) (cleanPath : String) : Option Frame :=
  match findFrame1 frames cleanPath with
  | some f => some f
  | none => findFrame2 frames (lastComponent cleanPath)

/-- The per-face UV output `{ uv: [u, v], uv_size: [w, h] }`. -/
structure UVResult where
  uv : ℚ × ℚ
  uv_size : ℚ × ℚ
deriving DecidableEq

/-- `Math.max(-1, Math.min(1, d))` — the inset sign factor of `calculateUV`. -/
def xSignOf (d : ℚ) : ℚ := max (-1) (min 1 d)

/-- The errors the core conversion can raise: the explicit
`throw new Error('No elements found in model')`, and the implicit JS
`TypeError` from dereferencing an absent `javaModel.textures` table. -/
inductive ConvError where
  | invalidInput
  | typeError
deriving DecidableEq

/-- The part of `calculateUV` past the `javaModel.textures` dereference
(which is where the JS can throw): key dereference, the no-spritesheet and
not-in-atlas pass-through fallbacks, and the atlas-space formula.  This
part is total: every branch returns a value (`none` is JS `null`). -/
def uvFromTable (conv : ConverterState) (r : Rect4)
    (table : List (String × String)) (textureKey : String) : Option UVResult :=
  match lookupStr table (jsDrop1 textureKey) with
  | none => none
  | some textureRef =>
    if textureRef = "" then none
    else
      match conv.spritesheetData with
      | none => some ⟨(r.u0, r.v0), (r.u1 - r.u0, r.v1 - r.v0)⟩
      | some sheet =>
        let cleanPath := cleanTexPath textureRef
        match findTextureData sheet.frames cleanPath with
        | none => some ⟨(r.u0, r.v0), (r.u1 - r.u0, r.v1 - r.v0)⟩
        | some fr =>
          let fn0 := ((r.u0 * fr.w * 0.0625) + fr.x) * (16 / sheet.metaW)
          let fn1 := ((r.v0 * fr.h * 0.0625) + fr.y) * (16 / sheet.metaH)
          let fn2 := ((r.u1 * fr.w * 0.0625) + fr.x) * (16 / sheet.metaW)
          let fn3 := ((r.v1 * fr.h * 0.0625) + fr.y) * (16 / sheet.metaH)
          let xSign := xSignOf (fn2 - fn0)
          let ySign := xSignOf (fn3 - fn1)
          some ⟨(roundit (fn0 + 0.016 * xSign), roundit (fn1 + 0.016 * ySign)),
                (roundit ((fn2 - fn0) - 0.016 * xSign),
                 roundit ((fn3 - fn1) - 0.016 * ySign))⟩

/-- `calculateUV(face, textureKey, javaModel)` from `converter.js`:
`Option UVResult` is the JS `null`-or-object result, `Except` carries the
`TypeError` thrown when `javaModel.textures` is absent at the dereference
`javaModel.textures[textureKey.substring(1)]`. -/
def calculateUV (conv : ConverterState) (face : Face) (textureKey : String)
    (jm : JavaModel) : Except ConvError (Option UVResult) :=
  match face.uv with
  | none => .ok none
  | some r =>
    match jm.textures with
    | none => .error .typeError
    | some table => .ok (uvFromTable conv r table textureKey)

/-- A converted cube.  `pivot`/`rotation` are only set for rotated source
elements; `uv` is only set when the face map is nonempty. -/
structure Cube where
  origin : Vec3
  size : Vec3
  uv : Option (List (String × UVResult))
  pivot : Option Vec3
  rotation : Option Vec3
deriving DecidableEq

/-- The rotation vector of `convertElement`: negate the angle for the x
and y axes, keep it for z, other components zero. -/
def rotVecOf (axis : String) (angle : ℚ) : Vec3 :=
  ⟨if axis = "x" then -angle else 0,
   if axis = "y" then -angle else 0,
   if axis = "z" then angle else 0⟩

/-- The face loop of `convertElement`: faces with a truthy `texture` are
passed to `calculateUV`; `null` results are dropped, entry order is kept. -/
def convertFaces (conv : ConverterState) (jm : JavaModel) :
    List (String × Face) → Except ConvError (List (String × UVResult))
  | [] => .ok []
  | (name, face) :: rest =>
    match face.texture with
    | none => convertFaces conv jm rest
    | some key =>
      if key = "" then convertFaces conv jm rest
      else
        match calculateUV conv face key jm with
        | .error e => .error e
        | .ok none => convertFaces conv jm rest
        | .ok (some uv) =>
          match convertFaces conv jm rest with
          | .error e => .error e
          | .ok tail => .ok ((name, uv) :: tail)

/-- `convertElement(element, javaModel)` from `converter.js`. -/
def convertElement (conv : ConverterState) (el : Element) (jm : JavaModel) :
    Except ConvError Cube :=
  match convertFaces conv jm el.faces with
  | .error e => .error e
  | .ok uvList =>
    let origin : Vec3 :=
      ⟨roundit (-el.eto.x + 8), roundit el.efrom.y, roundit (el.efrom.z - 8)⟩
    let size : Vec3 :=
      ⟨roundit (el.eto.x - el.efrom.x), roundit (el.eto.y - el.efrom.y),
       roundit (el.eto.z - el.efrom.z)⟩
    let uv := if uvList.isEmpty then none else some uvList
    match el.rotation with
    | none => .ok ⟨origin, size, uv, none, none⟩
    | some rot =>
      .ok ⟨origin, size, uv,
           some ⟨roundit (-rot.origin.x + 8), roundit rot.origin.y,
                 roundit (rot.origin.z - 8)⟩,
           some (rotVecOf rot.axis rot.angle)⟩

/-- `elements.map(el => this.convertElement(el, javaModel))` with JS
exception propagation. -/
def convertElements (conv : ConverterState) (jm : JavaModel) :
    List Element → Except ConvError (List Cube)
  | [] => .ok []
  | e :: es =>
    match convertElement conv e jm with
    | .error err => .error err
    | .ok c =>
      match convertElements conv jm es with
      | .error err => .error err
      | .ok cs => .ok (c :: cs)

/-- The raw-rotation dedup of `groupCubesByRotation`: push each element's
rotation unless an identical one (same JSON key, i.e. same origin, angle
and axis) was pushed before. -/
def collectRotations (els : List Element) : List SourceRotation :=
  els.foldl
    (fun acc el =>
      match el.rotation with
      | none => acc
      | some r => if acc.contains r then acc else acc ++ [r])
    []

/-- One rotation group: shared pivot and rotation plus its cube list. -/
structure RotationGroup where
  pivot : Vec3
  rotation : Vec3
  cubes : List Cube
deriving DecidableEq

/-- `delete cube.pivot; delete cube.rotation` on a spread copy. -/
def stripCube (c : Cube) : Cube := { c with pivot := none, rotation := none }

/-- The result of `groupCubesByRotation`. -/
structure GroupResult where
  groups : List RotationGroup
  noPivotCubes : List Cube
deriving DecidableEq

/-- `groupCubesByRotation(elements, javaModel)` from `converter.js`: dedup
raw rotations, build one group per raw key, and collect into each group
every rotated cube whose rounded pivot and rotation vectors match it. -/
def groupCubesByRotation (conv : ConverterState) (elements : List Element)
    (jm : JavaModel) : Except ConvError GroupResult :=
  match convertElements conv jm elements with
  | .error e => .error e
  | .ok cubes =>
    let rotations := collectRotations elements
    let groups := rotations.map (fun rot =>
      let pivot : Vec3 :=
        ⟨roundit (-rot.origin.x + 8), roundit rot.origin.y,
         roundit (rot.origin.z - 8)⟩
      let rotation := rotVecOf rot.axis rot.angle
      let groupCubes :=
        ((cubes.zip elements).filter (fun p =>
          p.2.rotation.isSome && p.1.rotation == some rotation &&
            p.1.pivot == some pivot)).map (fun p => stripCube p.1)
      (⟨pivot, rotation, groupCubes⟩ : RotationGroup))
    let noPivotCubes :=
      ((cubes.zip elements).filter (fun p => p.2.rotation.isNone)).map
        (fun p => stripCube p.1)
    .ok ⟨groups, noPivotCubes⟩

/-- The document description block. -/
structure Description where
  identifier : String
  texture_width : ℚ
  texture_height : ℚ
  visible_bounds_width : ℚ
  visible_bounds_height : ℚ
  visible_bounds_offset : Vec3
deriving DecidableEq

/-- One output bone.  `Option` fields model absent JSON properties; in
particular `cubes = some []` (an explicit empty list) differs from
`cubes = none` (no `cubes` property at all). -/
structure BedrockBone where
  name : String
  parent : Option String
  binding : Option String
  pivot : Option Vec3
  rotation : Option Vec3
  cubes : Option (List Cube)
deriving DecidableEq

/-- The output document (the single entry of `minecraft:geometry`). -/
structure BedrockGeometry where
  format_version : String
  description : Description
  bones : List BedrockBone
deriving DecidableEq

/-- The binding expression of the first scaffold bone. -/
def bindingExpr : String :=
  "c.item_slot == \x27head\x27 ? \x27head\x27 : q.item_slot_to_bone_name(c.item_slot)"

/-- The texture-width priority chain at the top of `convert`: atlas
`meta.size.w` when a spritesheet is present, else the declared
`texture_size[0]`, else the instance's current value (16 as set by the
constructor). -/
def texWidthOf (conv : ConverterState) (jm : JavaModel) : ℚ :=
  match conv.spritesheetData with
  | some s => s.metaW
  | none =>
    match jm.texture_size with
    | some p => p.1
    | none => conv.textureWidth

/-- The texture-height priority chain at the top of `convert`. -/
def texHeightOf (conv : ConverterState) (jm : JavaModel) : ℚ :=
  match conv.spritesheetData with
  | some s => s.metaH
  | none =>
    match jm.texture_size with
    | some p => p.2
    | none => conv.textureHeight

/-- `convert(javaModel, modelName, ...)` from `converter.js`: texture size
priority (atlas meta, else declared `texture_size`, else the instance
values set by the constructor), the zero-element guard, the fixed 4-bone
scaffold, and one `rot_<n>` bone per rotation group. -/
def convert (conv : ConverterState) (jm : JavaModel) (modelName : String) :
    Except ConvError BedrockGeometry :=
  let tw := texWidthOf conv jm
  let th := texHeightOf conv jm
  if jm.elements.isEmpty then .error .invalidInput
  else
    match groupCubesByRotation conv jm.elements jm with
    | .error e => .error e
    | .ok gr =>
      .ok { format_version := "1.21.0",
            description :=
              ⟨"geometry." ++ modelName, tw, th, 4, 4.5, ⟨0, 0.75, 0⟩⟩,
            bones :=
              [⟨"campfire", none, some bindingExpr, some ⟨0, 8, 0⟩, none, none⟩,
               ⟨"campfire_x", some "campfire", none, some ⟨0, 8, 0⟩, none, none⟩,
               ⟨"campfire_y", some "campfire_x", none, some ⟨0, 8, 0⟩, none, none⟩,
               ⟨"campfire_z", some "campfire_y", none, some ⟨0, 8, 0⟩, none,
                some gr.noPivotCubes⟩] ++
              gr.groups.enum.map (fun p =>
                ⟨"rot_" ++ toString (p.1 + 1), some "campfire_z", none,
                 some p.2.pivot, some p.2.rotation, some p.2.cubes⟩) }

/-- Decidable equality of `Except` results, for evaluating the converter
on concrete inputs. -/
instance instDecEqExcept {e a : Type} [DecidableEq e] [DecidableEq a] :
    DecidableEq (Except e a) := fun x y =>
  match x, y with
  | .error u, .error v =>
    if h : u = v then isTrue (by rw [h]) else isFalse (by simp [h])
  | .error _, .ok _ => isFalse (by simp)
  | .ok _, .error _ => isFalse (by simp)
  | .ok u, .ok v =>
    if h : u = v then isTrue (by rw [h]) else isFalse (by simp [h])

/-- The spec's constant `C`: the fixed half-extent of the source
coordinate space (the source space is centered at `(C, 0, C)`). -/
def sourceCenter : ℚ := 8

/-- Modelled on the spec's UV words: map a UV component into atlas pixel
space (`px = uv_component * frame.size * 0.0625 + frame.origin`) and
normalize to a 16-unit logical space (`result = px * (16 / atlas_total_size)`). -/
def specAtlasMap (c fsize forigin atlasTotal : ℚ) : ℚ :=
  (c * fsize * 0.0625 + forigin) * (16 / atlasTotal)

/-- The spec's `clamp(v, -1, 1)`. -/
def specClamp (v : ℚ) : ℚ := max (-1) (min 1 v)

/-- A face makes `calculateUV` dereference the texture table: it carries a
truthy `texture` key and a `uv` rectangle. -/
def faceTriggers (f : Face) : Bool :=
  (match f.texture with
   | none => false
   | some k => !(k == "")) && f.uv.isSome

/-- Some face of the element dereferences the texture table. -/
def elementDerefs (el : Element) : Bool :=
  el.faces.any (fun p => faceTriggers p.2)

/-- Some element of the document dereferences the texture table. -/
def modelDerefs (jm : JavaModel) : Bool := jm.elements.any elementDerefs

/-- A plain 16-cube element: `from=[0,0,0]`, `to=[16,16,16]`, no faces,
no rotation. -/
def elemCube16 : Element := ⟨⟨0, 0, 0⟩, ⟨16, 16, 16⟩, [], none⟩

/-- A document with no `textures` table and no elements. -/
def emptyModel : JavaModel := ⟨none, none, []⟩

/-- A one-element document. -/
def modelSimple : JavaModel := ⟨none, none, [elemCube16]⟩

/-- The converted cube of `elemCube16`. -/
def cube16 : Cube := ⟨⟨-8, 0, -8⟩, ⟨16, 16, 16⟩, none, none, none⟩

/-- The output document for `modelSimple` under a fresh converter. -/
def docSimple : BedrockGeometry :=
  { format_version := "1.21.0",
    description := ⟨"geometry.m", 16, 16, 4, 4.5, ⟨0, 0.75, 0⟩⟩,
    bones :=
      [⟨"campfire", none, some bindingExpr, some ⟨0, 8, 0⟩, none, none⟩,
       ⟨"campfire_x", some "campfire", none, some ⟨0, 8, 0⟩, none, none⟩,
       ⟨"campfire_y", some "campfire_x", none, some ⟨0, 8, 0⟩, none, none⟩,
       ⟨"campfire_z", some "campfire_y", none, some ⟨0, 8, 0⟩, none,
        some [cube16]⟩] }

/-- A rotated element whose raw rotation origin x is `8.00001`. -/
def elemRotA : Element :=
  ⟨⟨1, 1, 1⟩, ⟨2, 2, 2⟩, [], some ⟨⟨8.00001, 8, 8⟩, 22.5, "y"⟩⟩

/-- A rotated element whose raw rotation origin x is `8.000012`: its raw
rotation differs from `elemRotA`, but both round to pivot `[0,8,0]` and
rotation `[0,-22.5,0]`. -/
def elemRotB : Element :=
  ⟨⟨1, 1, 1⟩, ⟨2, 2, 2⟩, [], some ⟨⟨8.000012, 8, 8⟩, 22.5, "y"⟩⟩

/-- The two-element document holding `elemRotA` and `elemRotB`. -/
def modelAB : JavaModel := ⟨none, none, [elemRotA, elemRotB]⟩

/-- A document with one element whose face references texture `#0`, but
with no `textures` table at all. -/
def modelNoTex : JavaModel :=
  ⟨none, none,
   [⟨⟨0, 0, 0⟩, ⟨16, 16, 16⟩, [("north", ⟨some ⟨0, 0, 8, 8⟩, some "#0"⟩)], none⟩]⟩

/-- A one-element document declaring `texture_size: [32, 64]`. -/
def modelTS : JavaModel := ⟨none, some (32, 64), [elemCube16]⟩

/-- The output document for `modelTS` under a fresh (atlas-less)
converter: texture size comes from the declared `texture_size`. -/
def docTS : BedrockGeometry :=
  { format_version := "1.21.0",
    description := ⟨"geometry.m", 32, 64, 4, 4.5, ⟨0, 0.75, 0⟩⟩,
    bones := docSimple.bones }

/-- A one-frame 32×32 spritesheet whose frame path is `a.png`. -/
def sheetW : Spritesheet := ⟨[("a.png", ⟨0, 0, 16, 16⟩)], 32, 32⟩

/-- A converter holding `sheetW`. -/
def convW : ConverterState := ⟨16, 16, some sheetW⟩

/-- A document whose texture `#0` resolves to `ns:a` (found in `sheetW`). -/
def jmW : JavaModel := ⟨some [("0", "ns:a")], none, []⟩

/-- A face with UV rectangle `[0, 0, 8, 8]` referencing texture `#0`. -/
def faceW : Face := ⟨some ⟨0, 0, 8, 8⟩, some "#0"⟩

/-- A spritesheet whose only frame path `b.png` does not match texture
`ns:a` under any lookup strategy. -/
def sheetB : Spritesheet := ⟨[("b.png", ⟨0, 0, 16, 16⟩)], 32, 32⟩

/-- A converter holding `sheetB`. -/
def convB : ConverterState := ⟨16, 16, some sheetB⟩

/-- `calculateUV` raises only the absent-table `TypeError`, and only when
the face carries a `uv` rectangle. -/
theorem calculateUV_error_iff (conv : ConverterState) (f : Face) (k : String)
    (jm : JavaModel) (e : ConvError) :
    calculateUV conv f k jm = .error e ↔
      f.uv.isSome = true ∧ jm.textures = none ∧ e = ConvError.typeError := by
  unfold calculateUV
  rcases huv : f.uv with _ | r <;> rcases htex : jm.textures with _ | t <;>
    simp [huv, htex, eq_comm]

/-- With a texture table present, the face loop cannot raise. -/
theorem convertFaces_ok_of_textures (conv : ConverterState) (jm : JavaModel)
    (t : List (String × String)) (h : jm.textures = some t) :
    ∀ faces, ∃ l, convertFaces conv jm faces = .ok l := by
  intro faces
  induction faces with
  | nil => exact ⟨[], rfl⟩
  | cons p rest ih =>
    obtain ⟨l, hl⟩ := ih
    obtain ⟨name, face⟩ := p
    rcases htex2 : face.texture with _ | key
    · exact ⟨l, by simpa [convertFaces, htex2] using hl⟩
    · by_cases hk : key = ""
      · exact ⟨l, by simpa [convertFaces, htex2, hk] using hl⟩
      · rcases hc : calculateUV conv face key jm with e2 | o
        · rw [calculateUV_error_iff] at hc
          rw [h] at hc
          simp at hc
        · rcases o with _ | uv
          · exact ⟨l, by simpa [convertFaces, htex2, hk, hc] using hl⟩
          · exact ⟨(name, uv) :: l, by simp [convertFaces, htex2, hk, hc, hl]⟩

/-- With no texture table, a face list containing a dereferencing face
makes the face loop raise the `TypeError`. -/
theorem convertFaces_error_of_trigger (conv : ConverterState) (jm : JavaModel)
    (h : jm.textures = none) :
    ∀ faces, faces.any (fun p => faceTriggers p.2) = true →
      convertFaces conv jm faces = .error .typeError := by
  intro faces
  induction faces with
  | nil => simp
  | cons p rest ih =>
    obtain ⟨name, face⟩ := p
    intro hany
    rcases htex2 : face.texture with _ | key
    · have hrest : rest.any (fun p => faceTriggers p.2) = true := by
        simpa [faceTriggers, htex2] using hany
      simp [convertFaces, htex2, ih hrest]
    · by_cases hk : key = ""
      · have hrest : rest.any (fun p => faceTriggers p.2) = true := by
          simpa [faceTriggers, htex2, hk] using hany
        simp [convertFaces, htex2, hk, ih hrest]
      · rcases huv : face.uv with _ | r
        · have hrest : rest.any (fun p => faceTriggers p.2) = true := by
            simpa [faceTriggers, htex2, hk, huv] using hany
          simp [convertFaces, calculateUV, htex2, hk, huv, ih hrest]
        · simp [convertFaces, calculateUV, htex2, hk, huv, h]

/-- With no texture table and no dereferencing face, the face loop
returns the empty UV map. -/
theorem convertFaces_ok_of_no_trigger (conv : ConverterState) (jm : JavaModel)
    (h : jm.textures = none) :
    ∀ faces, faces.any (fun p => faceTriggers p.2) = false →
      convertFaces conv jm faces = .ok [] := by
  intro faces
  induction faces with
  | nil => simp [convertFaces]
  | cons p rest ih =>
    obtain ⟨name, face⟩ := p
    intro hany
    rcases htex2 : face.texture with _ | key
    · have hrest : rest.any (fun p => faceTriggers p.2) = false := by
        simpa [faceTriggers, htex2] using hany
      simp [convertFaces, htex2, ih hrest]
    · by_cases hk : key = ""
      · have hrest : rest.any (fun p => faceTriggers p.2) = false := by
          simpa [faceTriggers, htex2, hk] using hany
        simp [convertFaces, htex2, hk, ih hrest]
      · rcases huv : face.uv with _ | r
        · have hrest : rest.any (fun p => faceTriggers p.2) = false := by
            simpa [faceTriggers, htex2, hk, huv] using hany
          simp [convertFaces, calculateUV, htex2, hk, huv, ih hrest]
        · exfalso
          have : faceTriggers face = true := by
            simp [faceTriggers, htex2, hk, huv]
          simp [this] at hany

/-- A successful face loop makes `convertElement` succeed. -/
theorem convertElement_ok_of_faces (conv : ConverterState) (el : Element)
    (jm : JavaModel) (l : List (String × UVResult))
    (hf : convertFaces conv jm el.faces = .ok l) :
    ∃ c, convertElement conv el jm = .ok c := by
  unfold convertElement
  rw [hf]
  rcases hr : el.rotation with _ | rot
  · exact ⟨_, rfl⟩
  · exact ⟨_, rfl⟩

/-- `convertElement` raises exactly when its face loop raises. -/
theorem convertElement_error_iff (conv : ConverterState) (el : Element)
    (jm : JavaModel) (e : ConvError) :
    convertElement conv el jm = .error e ↔
      convertFaces conv jm el.faces = .error e := by
  unfold convertElement
  rcases hf : convertFaces conv jm el.faces with e2 | l <;>
    rcases hr : el.rotation with _ | rot <;> simp [hf, hr]

/-- With a texture table present, the element loop cannot raise. -/
theorem convertElements_ok_of_textures (conv : ConverterState) (jm : JavaModel)
    (t : List (String × String)) (h : jm.textures = some t) :
    ∀ els, ∃ cs, convertElements conv jm els = .ok cs := by
  intro els
  induction els with
  | nil => exact ⟨[], rfl⟩
  | cons el rest ih =>
    obtain ⟨cs, hcs⟩ := ih
    obtain ⟨l, hl⟩ := convertFaces_ok_of_textures conv jm t h el.faces
    obtain ⟨c, hc⟩ := convertElement_ok_of_faces conv el jm l hl
    exact ⟨c :: cs, by simp [convertElements, hc, hcs]⟩

/-- With no texture table, any dereferencing element makes the element
loop raise the `TypeError`. -/
theorem convertElements_error_of_deref (conv : ConverterState) (jm : JavaModel)
    (h : jm.textures = none) :
    ∀ els, els.any elementDerefs = true →
      convertElements conv jm els = .error .typeError := by
  intro els
  induction els with
  | nil => simp
  | cons el rest ih =>
    intro hany
    rcases hel : elementDerefs el with _ | _
    · have hrest : rest.any elementDerefs = true := by simpa [hel] using hany
      have hf : convertFaces conv jm el.faces = .ok [] :=
        convertFaces_ok_of_no_trigger conv jm h el.faces
          (by simpa [elementDerefs] using hel)
      obtain ⟨c, hc⟩ := convertElement_ok_of_faces conv el jm [] hf
      simp [convertElements, hc, ih hrest]
    · have hf : convertFaces conv jm el.faces = .error .typeError :=
        convertFaces_error_of_trigger conv jm h el.faces
          (by simpa [elementDerefs] using hel)
      have he : convertElement conv el jm = .error .typeError :=
        (convertElement_error_iff conv el jm .typeError).mpr hf
      simp [convertElements, he]

/-- With no texture table but no dereferencing element, the element loop
still succeeds. -/
theorem convertElements_ok_of_no_deref (conv : ConverterState) (jm : JavaModel)
    (h : jm.textures = none) :
    ∀ els, els.any elementDerefs = false →
      ∃ cs, convertElements conv jm els = .ok cs := by
  intro els
  induction els with
  | nil => exact fun _ => ⟨[], rfl⟩
  | cons el rest ih =>
    intro hany
    have hel : elementDerefs el = false := by
      rcases hel : elementDerefs el with _ | _
      · rfl
      · simp [hel] at hany
    have hrest : rest.any elementDerefs = false := by simpa [hel] using hany
    obtain ⟨cs, hcs⟩ := ih hrest
    have hf : convertFaces conv jm el.faces = .ok [] :=
      convertFaces_ok_of_no_trigger conv jm h el.faces
        (by simpa [elementDerefs] using hel)
    obtain ⟨c, hc⟩ := convertElement_ok_of_faces conv el jm [] hf
    exact ⟨c :: cs, by simp [convertElements, hc, hcs]⟩

/-- The grouping step raises exactly when the element loop raises. -/
theorem groupCubes_error_iff (conv : ConverterState) (els : List Element)
    (jm : JavaModel) (e : ConvError) :
    groupCubesByRotation conv els jm = .error e ↔
      convertElements conv jm els = .error e := by
  unfold groupCubesByRotation
  rcases hc : convertElements conv jm els with e2 | cs <;> simp [hc]

/-- A successful element loop makes the grouping step succeed. -/
theorem groupCubes_ok_of (conv : ConverterState) (els : List Element)
    (jm : JavaModel) (cs : List Cube)
    (h : convertElements conv jm els = .ok cs) :
    ∃ gr, groupCubesByRotation conv els jm = .ok gr := by
  unfold groupCubesByRotation
  rw [h]
  exact ⟨_, rfl⟩

/-- Inversion of a successful `convert`: the element list was nonempty,
grouping succeeded, and the document is the scaffold-plus-rotation-bones
literal that `convert` builds. -/
theorem convert_ok_inv (conv : ConverterState) (jm : JavaModel) (name : String)
    (doc : BedrockGeometry) (h : convert conv jm name = .ok doc) :
    jm.elements.isEmpty = false ∧
    ∃ gr, groupCubesByRotation conv jm.elements jm = .ok gr ∧
      doc = { format_version := "1.21.0",
              description :=
                ⟨"geometry." ++ name, texWidthOf conv jm, texHeightOf conv jm,
                 4, 4.5, ⟨0, 0.75, 0⟩⟩,
              bones :=
                [⟨"campfire", none, some bindingExpr, some ⟨0, 8, 0⟩, none, none⟩,
                 ⟨"campfire_x", some "campfire", none, some ⟨0, 8, 0⟩, none, none⟩,
                 ⟨"campfire_y", some "campfire_x", none, some ⟨0, 8, 0⟩, none, none⟩,
                 ⟨"campfire_z", some "campfire_y", none, some ⟨0, 8, 0⟩, none,
                  some gr.noPivotCubes⟩] ++
                gr.groups.enum.map (fun p =>
                  ⟨"rot_" ++ toString (p.1 + 1), some "campfire_z", none,
                   some p.2.pivot, some p.2.rotation, some p.2.cubes⟩) } := by
  unfold convert at h
  rcases he : jm.elements.isEmpty with _ | _
  · rcases hg : groupCubesByRotation conv jm.elements jm with e | gr
    · rw [he, hg] at h
      simp at h
    · rw [he, hg] at h
      simp only [Bool.false_eq_true, if_false, Except.ok.injEq] at h
      exact ⟨rfl, gr, rfl, h.symm⟩
  · rw [he] at h
    simp at h

/-- `xSignOf` in closed form: clamp to the interval from -1 to 1. -/
theorem xSignOf_eq (d : ℚ) :
    xSignOf d = if d ≤ -1 then -1 else if 1 ≤ d then 1 else d := by
  unfold xSignOf
  rcases le_or_lt d (-1) with h1 | h1
  · rw [if_pos h1, min_eq_right (le_trans h1 (by norm_num)), max_eq_left h1]
  · rw [if_neg (not_le.mpr h1)]
    rcases le_or_lt 1 d with h2 | h2
    · rw [if_pos h2, min_eq_left h2, max_eq_right (by norm_num)]
    · rw [if_neg (not_le.mpr h2), min_eq_right (le_of_lt h2),
        max_eq_right (le_of_lt h1)]

/-- C1: for every source element the Geometry Transform emits
`size[i] = round4(to[i] - from[i])` on each axis and
`origin = [round4(C - to.x), round4(from.y), round4(from.z - C)]` with
`C = 8`; concretely, `from=[0,0,0]`, `to=[16,16,16]` yields
`origin=[-8,0,-8]` and `size=[16,16,16]`.  (`round4` is the source's
`roundit`, i.e. JS `Math.round(v * 10000) / 10000`.) -/
theorem c1_geometry_transform :
    (∀ (conv : ConverterState) (el : Element) (jm : JavaModel) (cube : Cube),
        convertElement conv el jm = .ok cube →
          cube.size = ⟨roundit (el.eto.x - el.efrom.x),
                       roundit (el.eto.y - el.efrom.y),
                       roundit (el.eto.z - el.efrom.z)⟩ ∧
          cube.origin = ⟨roundit (sourceCenter - el.eto.x),
                         roundit el.efrom.y,
                         roundit (el.efrom.z - sourceCenter)⟩) ∧
    convertElement mkConverter elemCube16 emptyModel = .ok cube16 := by
  constructor
  · intro conv el jm cube h
    unfold convertElement at h
    rcases hf : convertFaces conv jm el.faces with e | l
    · rw [hf] at h
      simp at h
    · rw [hf] at h
      have hx : -el.eto.x + 8 = sourceCenter - el.eto.x := by
        unfold sourceCenter; ring
      have hz : el.efrom.z - 8 = el.efrom.z - sourceCenter := by
        unfold sourceCenter; ring
      rcases hr : el.rotation with _ | rot <;> rw [hr] at h <;>
        simp only [Except.ok.injEq] at h <;> subst h <;>
        exact ⟨rfl, by rw [hx, hz]⟩
  · with_unfolding_all decide

/-- Witness for C1 at `from=[0,0,0]`, `to=[16,16,16]`. -/
theorem c1_geometry_transform_witness :
    cube16.size = ⟨roundit (elemCube16.eto.x - elemCube16.efrom.x),
                   roundit (elemCube16.eto.y - elemCube16.efrom.y),
                   roundit (elemCube16.eto.z - elemCube16.efrom.z)⟩ ∧
    cube16.origin = ⟨roundit (sourceCenter - elemCube16.eto.x),
                     roundit elemCube16.efrom.y,
                     roundit (elemCube16.efrom.z - sourceCenter)⟩ :=
  c1_geometry_transform.1 mkConverter elemCube16 emptyModel cube16
    (by with_unfolding_all decide)

/-- C2 (counter-evaluation): `groupCubesByRotation` dedups on the raw
rotation data, not on the rounded pivot/rotation.  Two elements whose raw
rotation origins differ (8.00001 vs 8.000012) but round to the same pivot
`[0,8,0]` and rotation `[0,-22.5,0]` produce two distinct groups, and
each group collects both cubes. -/
theorem c2_raw_key_spurious_groups :
    (groupCubesByRotation mkConverter [elemRotA, elemRotB] modelAB).map
        (fun gr => (gr.groups.length,
                    gr.groups.map (fun g => (g.pivot, g.rotation, g.cubes.length)))) =
      .ok (2, [(⟨0, 8, 0⟩, ⟨0, -22.5, 0⟩, 2), (⟨0, 8, 0⟩, ⟨0, -22.5, 0⟩, 2)]) ∧
    elemRotA.rotation ≠ elemRotB.rotation := by
  with_unfolding_all decide

/-- C3: with atlas data present and the texture found, `calculateUV` maps
each UV component by `px = uv * frame.size * 0.0625 + frame.origin`
followed by `px * (16 / atlas_total_size)`, then applies the 0.016 inset
with `sign = clamp(u1 - u0, -1, 1)` and rounds all four outputs. -/
theorem c3_atlas_uv_formula (conv : ConverterState) (sheet : Spritesheet)
    (face : Face) (key : String) (jm : JavaModel)
    (table : List (String × String)) (ref : String) (fr : Frame) (r : Rect4)
    (hss : conv.spritesheetData = some sheet)
    (htab : jm.textures = some table)
    (huv : face.uv = some r)
    (hluk : lookupStr table (jsDrop1 key) = some ref)
    (hne : ref ≠ "")
    (hfr : findTextureData sheet.frames (cleanTexPath ref) = some fr) :
    calculateUV conv face key jm =
      .ok (some
        ⟨(roundit (specAtlasMap r.u0 fr.w fr.x sheet.metaW +
             0.016 * specClamp (specAtlasMap r.u1 fr.w fr.x sheet.metaW -
               specAtlasMap r.u0 fr.w fr.x sheet.metaW)),
          roundit (specAtlasMap r.v0 fr.h fr.y sheet.metaH +
             0.016 * specClamp (specAtlasMap r.v1 fr.h fr.y sheet.metaH -
               specAtlasMap r.v0 fr.h fr.y sheet.metaH))),
         (roundit ((specAtlasMap r.u1 fr.w fr.x sheet.metaW -
               specAtlasMap r.u0 fr.w fr.x sheet.metaW) -
             0.016 * specClamp (specAtlasMap r.u1 fr.w fr.x sheet.metaW -
               specAtlasMap r.u0 fr.w fr.x sheet.metaW)),
          roundit ((specAtlasMap r.v1 fr.h fr.y sheet.metaH -
               specAtlasMap r.v0 fr.h fr.y sheet.metaH) -
             0.016 * specClamp (specAtlasMap r.v1 fr.h fr.y sheet.metaH -
               specAtlasMap r.v0 fr.h fr.y sheet.metaH)))⟩) := by
  simp only [calculateUV, uvFromTable, huv, htab, hluk, hss, hfr, if_neg hne,
    specAtlasMap, specClamp, xSignOf]

/-- Witness for C3: texture `ns:a` found in a one-frame 32×32 atlas. -/
theorem c3_atlas_uv_formula_witness :
    calculateUV convW faceW "#0" jmW =
      .ok (some
        ⟨(roundit (specAtlasMap 0 16 0 32 +
             0.016 * specClamp (specAtlasMap 8 16 0 32 - specAtlasMap 0 16 0 32)),
          roundit (specAtlasMap 0 16 0 32 +
             0.016 * specClamp (specAtlasMap 8 16 0 32 - specAtlasMap 0 16 0 32))),
         (roundit ((specAtlasMap 8 16 0 32 - specAtlasMap 0 16 0 32) -
             0.016 * specClamp (specAtlasMap 8 16 0 32 - specAtlasMap 0 16 0 32)),
          roundit ((specAtlasMap 8 16 0 32 - specAtlasMap 0 16 0 32) -
             0.016 * specClamp (specAtlasMap 8 16 0 32 - specAtlasMap 0 16 0 32)))⟩) :=
  c3_atlas_uv_formula convW sheetW faceW "#0" jmW [("0", "ns:a")] "ns:a"
    ⟨0, 0, 16, 16⟩ ⟨0, 0, 8, 8⟩ rfl rfl rfl (by with_unfolding_all decide)
    (by with_unfolding_all decide) (by with_unfolding_all decide)

/-- C4: for every rotated source element, the emitted pivot is
`[round4(C - origin.x), round4(origin.y), round4(origin.z - C)]` with
`C = 8`, and the rotation vector negates the angle for axes x and y but
not z; concretely axis x, angle 45 gives `[-45,0,0]` and axis z,
angle 30 gives `[0,0,30]`. -/
theorem c4_rotation_pivot_transform :
    (∀ (conv : ConverterState) (f t : Vec3) (faces : List (String × Face))
        (ro : Vec3) (an : ℚ) (ax : String) (jm : JavaModel) (cube : Cube),
        convertElement conv ⟨f, t, faces, some ⟨ro, an, ax⟩⟩ jm = .ok cube →
          cube.pivot = some ⟨roundit (sourceCenter - ro.x), roundit ro.y,
                             roundit (ro.z - sourceCenter)⟩ ∧
          cube.rotation = some ⟨if ax = "x" then -an else 0,
                                if ax = "y" then -an else 0,
                                if ax = "z" then an else 0⟩) ∧
    convertElement mkConverter ⟨⟨0, 0, 0⟩, ⟨1, 1, 1⟩, [], some ⟨⟨8, 8, 8⟩, 45, "x"⟩⟩
        emptyModel =
      .ok ⟨⟨7, 0, -8⟩, ⟨1, 1, 1⟩, none, some ⟨0, 8, 0⟩, some ⟨-45, 0, 0⟩⟩ ∧
    convertElement mkConverter ⟨⟨0, 0, 0⟩, ⟨1, 1, 1⟩, [], some ⟨⟨8, 8, 8⟩, 30, "z"⟩⟩
        emptyModel =
      .ok ⟨⟨7, 0, -8⟩, ⟨1, 1, 1⟩, none, some ⟨0, 8, 0⟩, some ⟨0, 0, 30⟩⟩ := by
  refine ⟨?_, by with_unfolding_all decide, by with_unfolding_all decide⟩
  intro conv f t faces ro an ax jm cube h
  unfold convertElement at h
  rcases hf : convertFaces conv jm faces with e | l
  · rw [hf] at h
    simp at h
  · rw [hf] at h
    simp only [Except.ok.injEq] at h
    subst h
    have hx : -ro.x + 8 = sourceCenter - ro.x := by
      unfold sourceCenter; ring
    have hz : ro.z - 8 = ro.z - sourceCenter := by
      unfold sourceCenter; ring
    exact ⟨by rw [hx, hz], rfl⟩

/-- Witness for C4 at rotation origin `[8,8,8]`, angle 45, axis x. -/
theorem c4_rotation_pivot_transform_witness :
    (⟨⟨7, 0, -8⟩, ⟨1, 1, 1⟩, none, some ⟨0, 8, 0⟩, some ⟨-45, 0, 0⟩⟩ : Cube).pivot =
      some ⟨roundit (sourceCenter - 8), roundit 8, roundit (8 - sourceCenter)⟩ ∧
    (⟨⟨7, 0, -8⟩, ⟨1, 1, 1⟩, none, some ⟨0, 8, 0⟩, some ⟨-45, 0, 0⟩⟩ : Cube).rotation =
      some ⟨if "x" = "x" then -(45 : ℚ) else 0,
            if "x" = "y" then -(45 : ℚ) else 0,
            if "x" = "z" then (45 : ℚ) else 0⟩ :=
  c4_rotation_pivot_transform.1 mkConverter ⟨0, 0, 0⟩ ⟨1, 1, 1⟩ [] ⟨8, 8, 8⟩ 45 "x"
    emptyModel ⟨⟨7, 0, -8⟩, ⟨1, 1, 1⟩, none, some ⟨0, 8, 0⟩, some ⟨-45, 0, 0⟩⟩
    (by with_unfolding_all decide)

/-- C5: when no atlas data is available for the texture — no spritesheet
at all, or the texture not found in the frame table — `calculateUV` is
the exact pass-through `uv=[u0,v0]`, `uv_size=[u1-u0, v1-v0]`; concretely
`uv:[0,0,8,8]` yields `uv=[0,0]`, `uv_size=[8,8]`. -/
theorem c5_uv_fallback :
    (∀ (conv : ConverterState) (face : Face) (key : String) (jm : JavaModel)
        (table : List (String × String)) (ref : String) (r : Rect4),
        conv.spritesheetData = none → face.uv = some r →
        jm.textures = some table → lookupStr table (jsDrop1 key) = some ref →
        ref ≠ "" →
        calculateUV conv face key jm =
          .ok (some ⟨(r.u0, r.v0), (r.u1 - r.u0, r.v1 - r.v0)⟩)) ∧
    (∀ (conv : ConverterState) (sheet : Spritesheet) (face : Face) (key : String)
        (jm : JavaModel) (table : List (String × String)) (ref : String)
        (r : Rect4),
        conv.spritesheetData = some sheet → face.uv = some r →
        jm.textures = some table → lookupStr table (jsDrop1 key) = some ref →
        ref ≠ "" → findTextureData sheet.frames (cleanTexPath ref) = none →
        calculateUV conv face key jm =
          .ok (some ⟨(r.u0, r.v0), (r.u1 - r.u0, r.v1 - r.v0)⟩)) ∧
    calculateUV mkConverter ⟨some ⟨0, 0, 8, 8⟩, some "#0"⟩ "#0"
        ⟨some [("0", "t")], none, []⟩ =
      .ok (some ⟨(0, 0), (8, 8)⟩) := by
  refine ⟨?_, ?_, by with_unfolding_all decide⟩
  · intro conv face key jm table ref r hss huv htab hluk hne
    simp only [calculateUV, uvFromTable, huv, htab, hluk, hss, if_neg hne]
  · intro conv sheet face key jm table ref r hss huv htab hluk hne hfr
    simp only [calculateUV, uvFromTable, huv, htab, hluk, hss, hfr, if_neg hne]

/-- Witness for C5: a texture that resolves but is missing from the atlas
frame table falls back to the pass-through. -/
theorem c5_uv_fallback_witness :
    calculateUV convB faceW "#0" ⟨some [("0", "ns:a")], none, []⟩ =
      .ok (some ⟨(0, 0), (8, 8)⟩) := by
  have h := c5_uv_fallback.2.1 convB sheetB faceW "#0"
    ⟨some [("0", "ns:a")], none, []⟩ [("0", "ns:a")] "ns:a" ⟨0, 0, 8, 8⟩
    rfl rfl rfl (by with_unfolding_all decide) (by with_unfolding_all decide)
    (by with_unfolding_all decide)
  simpa using h

/-- C6 (counterexample): the four scaffold bones of the output are named
`campfire`, `campfire_x`, `campfire_y`, `campfire_z` — not `root`,
`root_x`, `root_y`, `root_z` as the claim states. -/
theorem c6_scaffold_names_counterexample :
    (convert mkConverter modelSimple "m").map (fun d => d.bones.map (fun b => b.name)) =
      .ok ["campfire", "campfire_x", "campfire_y", "campfire_z"] ∧
    ("campfire" : String) ≠ "root" := by
  with_unfolding_all decide

/-- C6 (amended): every successful conversion emits the fixed 4-node
scaffold chain `campfire` → `campfire_x` → `campfire_y` → `campfire_z`,
each pivoted at `[0,8,0]`, the last carrying the no-rotation cubes as an
explicit (possibly empty) cube list, followed by one bone `rot_<n>`
(1-based emission index) per rotation group, parented to `campfire_z`
and carrying that group's pivot, rotation and cubes. -/
theorem c6_scaffold_structure_amended (conv : ConverterState) (jm : JavaModel)
    (name : String) (doc : BedrockGeometry) (h : convert conv jm name = .ok doc) :
    ∃ gr, groupCubesByRotation conv jm.elements jm = .ok gr ∧
      doc.bones =
        [⟨"campfire", none, some bindingExpr, some ⟨0, 8, 0⟩, none, none⟩,
         ⟨"campfire_x", some "campfire", none, some ⟨0, 8, 0⟩, none, none⟩,
         ⟨"campfire_y", some "campfire_x", none, some ⟨0, 8, 0⟩, none, none⟩,
         ⟨"campfire_z", some "campfire_y", none, some ⟨0, 8, 0⟩, none,
          some gr.noPivotCubes⟩] ++
        gr.groups.enum.map (fun p =>
          ⟨"rot_" ++ toString (p.1 + 1), some "campfire_z", none,
           some p.2.pivot, some p.2.rotation, some p.2.cubes⟩) := by
  obtain ⟨-, gr, hg, hdoc⟩ := convert_ok_inv conv jm name doc h
  exact ⟨gr, hg, by rw [hdoc]⟩

/-- Witness for C6 (amended) at a concrete one-element document. -/
theorem c6_scaffold_structure_witness :
    ∃ gr, groupCubesByRotation mkConverter modelSimple.elements modelSimple = .ok gr ∧
      docSimple.bones =
        [⟨"campfire", none, some bindingExpr, some ⟨0, 8, 0⟩, none, none⟩,
         ⟨"campfire_x", some "campfire", none, some ⟨0, 8, 0⟩, none, none⟩,
         ⟨"campfire_y", some "campfire_x", none, some ⟨0, 8, 0⟩, none, none⟩,
         ⟨"campfire_z", some "campfire_y", none, some ⟨0, 8, 0⟩, none,
          some gr.noPivotCubes⟩] ++
        gr.groups.enum.map (fun p =>
          ⟨"rot_" ++ toString (p.1 + 1), some "campfire_z", none,
           some p.2.pivot, some p.2.rotation, some p.2.cubes⟩) :=
  c6_scaffold_structure_amended mkConverter modelSimple "m" docSimple
    (by with_unfolding_all decide)

/-- C7 (counterexample): a document with a nonempty element list but no
`textures` table raises the dereference `TypeError`, not the
no-elements `InvalidInput` — so the empty-elements check is not the only
raising condition. -/
theorem c7_typeerror_counterexample :
    convert mkConverter modelNoTex "m" = .error .typeError ∧
    modelNoTex.elements ≠ [] ∧
    ConvError.typeError ≠ ConvError.invalidInput := by
  with_unfolding_all decide

/-- C7 (amended): the conversion raises `InvalidInput` exactly on an
empty/missing element list; it additionally raises the JS `TypeError`
exactly when the element list is nonempty, the document has no `textures`
table, and some face carries both a truthy texture key and a UV
rectangle; in every other situation it succeeds and produces a document. -/
theorem c7_error_characterization (conv : ConverterState) (jm : JavaModel)
    (name : String) :
    (convert conv jm name = .error .invalidInput ↔ jm.elements = []) ∧
    (convert conv jm name = .error .typeError ↔
      jm.elements ≠ [] ∧ jm.textures = none ∧ modelDerefs jm = true) ∧
    ((∃ doc, convert conv jm name = .ok doc) ↔
      jm.elements ≠ [] ∧ (jm.textures = none → modelDerefs jm = false)) := by
  rcases hels : jm.elements with _ | ⟨e0, rest⟩
  · have hconv : convert conv jm name = .error .invalidInput := by
      unfold convert
      rw [hels]
      rfl
    refine ⟨by simp [hconv], by simp [hconv], by simp [hconv]⟩
  · have hne2 : jm.elements.isEmpty = false := by rw [hels]; rfl
    rcases htex : jm.textures with _ | t
    · rcases hder : modelDerefs jm with _ | _
      · have hany : jm.elements.any elementDerefs = false := by
          unfold modelDerefs at hder
          exact hder
        obtain ⟨cs, hcs⟩ :=
          convertElements_ok_of_no_deref conv jm htex jm.elements hany
        obtain ⟨gr, hgr⟩ := groupCubes_ok_of conv jm.elements jm cs hcs
        have hc : ∃ doc, convert conv jm name = .ok doc := by
          unfold convert
          rw [hne2, hgr]
          exact ⟨_, rfl⟩
        obtain ⟨doc, hd⟩ := hc
        refine ⟨?_, ?_, ?_⟩
        · constructor
          · intro habs
            rw [habs] at hd
            simp at hd
          · intro h0
            exact absurd h0 (by simp)
        · constructor
          · intro habs
            rw [habs] at hd
            simp at hd
          · rintro ⟨-, -, h2⟩
            exact absurd h2 (by simp)
        · constructor
          · intro _
            exact ⟨by simp, fun _ => rfl⟩
          · intro _
            exact ⟨doc, hd⟩
      · have hany : jm.elements.any elementDerefs = true := by
          unfold modelDerefs at hder
          exact hder
        have herr := convertElements_error_of_deref conv jm htex jm.elements hany
        have hgr : groupCubesByRotation conv jm.elements jm = .error .typeError :=
          (groupCubes_error_iff conv jm.elements jm .typeError).mpr herr
        have hc : convert conv jm name = .error .typeError := by
          unfold convert
          rw [hne2, hgr]
          rfl
        refine ⟨?_, ?_, ?_⟩
        · rw [hc]
          constructor
          · intro habs
            exact absurd habs (by simp)
          · intro h0
            exact absurd h0 (by simp)
        · rw [hc]
          simp
        · rw [hc]
          constructor
          · rintro ⟨doc, hd⟩
            exact absurd hd (by simp)
          · rintro ⟨-, h2⟩
            exact absurd (h2 rfl) (by simp)
    · obtain ⟨cs, hcs⟩ := convertElements_ok_of_textures conv jm t htex jm.elements
      obtain ⟨gr, hgr⟩ := groupCubes_ok_of conv jm.elements jm cs hcs
      have hc : ∃ doc, convert conv jm name = .ok doc := by
        unfold convert
        rw [hne2, hgr]
        exact ⟨_, rfl⟩
      obtain ⟨doc, hd⟩ := hc
      refine ⟨?_, ?_, ?_⟩
      · constructor
        · intro habs
          rw [habs] at hd
          simp at hd
        · intro h0
          exact absurd h0 (by simp)
      · constructor
        · intro habs
          rw [habs] at hd
          simp at hd
        · rintro ⟨-, h1, -⟩
          exact absurd h1 (by simp)
      · constructor
        · intro _
          exact ⟨by simp, fun h0 => absurd h0 (by simp)⟩
        · intro _
          exact ⟨doc, hd⟩

/-- Witness for C7 (amended) at the empty document. -/
theorem c7_error_characterization_witness :
    convert mkConverter emptyModel "m" = .error .invalidInput :=
  (c7_error_characterization mkConverter emptyModel "m").1.mpr rfl

/-- C8: the 0.016 inset term has the sign of the extent `d = u1 - u0`
(`xSignOf` is the clamp used by `calculateUV`), and the pre-rounding
`uv_size` component `d - 0.016 * xSignOf d` stays nonnegative whenever
the extent exceeds `2 * 0.016` logical units. -/
theorem c8_inset_sign (d : ℚ) :
    (0 < d ↔ 0 < 0.016 * xSignOf d) ∧
    (d < 0 ↔ 0.016 * xSignOf d < 0) ∧
    (2 * 0.016 < d → 0 ≤ d - 0.016 * xSignOf d) := by
  rw [xSignOf_eq]
  split_ifs with h1 h2
  · refine ⟨⟨fun h0 => absurd h0 (by linarith), fun h0 => absurd h0 (by norm_num)⟩,
      ⟨fun _ => by norm_num, fun _ => by linarith⟩,
      fun h0 => absurd h0 (by linarith)⟩
  · refine ⟨⟨fun _ => by norm_num, fun _ => by linarith⟩,
      ⟨fun h0 => absurd h0 (by linarith), fun h0 => absurd h0 (by norm_num)⟩,
      fun h0 => by linarith⟩
  · push_neg at h1 h2
    refine ⟨⟨fun h0 => by nlinarith, fun h0 => by nlinarith⟩,
      ⟨fun h0 => by nlinarith, fun h0 => by nlinarith⟩,
      fun h0 => by nlinarith⟩

/-- Witness for C8 at extent `d = 1`. -/
theorem c8_inset_sign_witness : (0 : ℚ) ≤ 1 - 0.016 * xSignOf 1 :=
  (c8_inset_sign 1).2.2 (by norm_num)

/-- C9: the output description takes `texture_width`/`texture_height`
from the atlas meta size when a spritesheet is present, else from the
declared `texture_size`, else from the converter instance's values (16
from the constructor), and the identifier is `geometry.<modelName>`. -/
theorem c9_description_metadata (conv : ConverterState) (jm : JavaModel)
    (name : String) (doc : BedrockGeometry) (h : convert conv jm name = .ok doc) :
    doc.description.identifier = "geometry." ++ name ∧
    (∀ s, conv.spritesheetData = some s →
        doc.description.texture_width = s.metaW ∧
        doc.description.texture_height = s.metaH) ∧
    (∀ w hh, conv.spritesheetData = none → jm.texture_size = some (w, hh) →
        doc.description.texture_width = w ∧
        doc.description.texture_height = hh) ∧
    (conv.spritesheetData = none → jm.texture_size = none →
        doc.description.texture_width = conv.textureWidth ∧
        doc.description.texture_height = conv.textureHeight) ∧
    mkConverter.textureWidth = 16 ∧ mkConverter.textureHeight = 16 ∧
    mkConverter.spritesheetData = none := by
  obtain ⟨-, gr, hg, hdoc⟩ := convert_ok_inv conv jm name doc h
  subst hdoc
  refine ⟨rfl, ?_, ?_, ?_, rfl, rfl, rfl⟩
  · intro s hs
    exact ⟨by simp [texWidthOf, hs], by simp [texHeightOf, hs]⟩
  · intro w hh hnone hts
    exact ⟨by simp [texWidthOf, hnone, hts], by simp [texHeightOf, hnone, hts]⟩
  · intro hnone hts
    exact ⟨by simp [texWidthOf, hnone, hts], by simp [texHeightOf, hnone, hts]⟩

/-- Witness for C9: no atlas, declared `texture_size: [32, 64]`. -/
theorem c9_description_metadata_witness :
    docTS.description.texture_width = 32 ∧ docTS.description.texture_height = 64 :=
  (c9_description_metadata mkConverter modelTS "m" docTS
      (by with_unfolding_all decide)).2.2.1 32 64 rfl rfl

/-- C10 (counter-evaluation): on the two-element document `modelAB` the
grouping emits four cube occurrences (two per spurious group) from only
two source elements, so elements do not contribute exactly one output
cube each. -/
theorem c10_cube_duplication :
    (groupCubesByRotation mkConverter [elemRotA, elemRotB] modelAB).map
        (fun gr => gr.noPivotCubes.length +
          (gr.groups.map (fun g => g.cubes.length)).sum) = .ok 4 ∧
    [elemRotA, elemRotB].length = 2 := by
  with_unfolding_all decide

end JavaToBedrock
